import Mathlib

/-!
Verification of the multi-format report export pipeline of this repository
(the export service: `generateFilename`, `exportToCsv`, `exportToExcel`,
`exportToPdf`, `exportToJson`, and the per-kind exporters `exportOrders`,
`exportProducts`, `exportCustomers`, `exportSales`, `exportInventory`,
`exportVendors`).

The TypeScript source is shallowly embedded: loosely-typed record values
become the inductive `JSVal`, Prisma rows become explicit structures,
JS numbers become `ℚ`, epoch timestamps become `ℤ`, and the wall clock,
the data source, and the filename timestamp become explicit parameters.
-/

/-- A loosely-typed JS value as it occurs in report records: strings,
numbers, booleans, `null`/`undefined` (collapsed, both render as the
missing sentinel), and nested string-keyed objects. -/
inductive JSVal where
  | s (v : String)
  | num (v : ℚ)
  | b (v : Bool)
  | null
  | obj (fields : List (String × JSVal))

/-- First-match lookup of a key in an object's field list
(JS property access `obj[key]`). -/
def jsLookup (fields : List (String × JSVal)) (key : String) : Option JSVal :=
  match fields with
  | [] => none
  | (k, v) :: rest => if k = key then some v else jsLookup rest key

/-- One step of the reducer
`(obj, key) => (obj && obj[key] !== undefined ? obj[key] : null)`
used by `exportToExcel` and `exportToPdf`: property access on a non-object
or an absent key yields `null`. -/
def projectStep (v : JSVal) (key : String) : JSVal :=
  match v with
  | .obj fs =>
    match jsLookup fs key with
    | some w => w
    | none => .null
  | _ => .null

/-- `field.split(".").reduce((obj, key) => ..., item)`: dotted-path
projection of a record, from `exportToExcel` / `exportToPdf`. -/
def projectField (v : JSVal) (path : List String) : JSVal :=
  path.foldl projectStep v

/-- Modelled from the spec's words, for refinement comparison only:
"traversal follows nested mappings; if any segment is absent or the
intermediate value is not a mapping, returns a defined missing sentinel". -/
def projectPathSpec : JSVal → List String → JSVal
  | v, [] => v
  | .obj fs, k :: rest =>
    match jsLookup fs k with
    | some w => projectPathSpec w rest
    | none => .null
  | _, _ :: _ => .null

/-- `value !== null && value !== undefined ? value : ""`: the Excel
renderer's cell default for the missing sentinel. -/
def cellOrEmpty (v : JSVal) : JSVal :=
  match v with
  | .null => .s ""
  | w => w

/-- JS number stringification as used when a cell value is rendered as
text; integers print without a decimal point. -/
def qToString (q : ℚ) : String :=
  if q.den = 1 then toString q.num else toString q.num ++ "/" ++ toString q.den

/-- `value.toString()` with the PDF renderer's `null` → `""` default. -/
def jsValToString (v : JSVal) : String :=
  match v with
  | .s t => t
  | .num q => qToString q
  | .b true => "true"
  | .b false => "false"
  | .null => ""
  | .obj _ => "[object Object]"

/-- Auxiliary splitter: cut a character list at every separator
occurrence, keeping empty segments (JS `String.prototype.split`). -/
def splitCharAux (sep : Char) : List Char → List Char → List (List Char)
  | [], acc => [acc.reverse]
  | c :: cs, acc =>
    if c = sep then acc.reverse :: splitCharAux sep cs []
    else splitCharAux sep cs (c :: acc)

/-- JS `s.split(sep)` for a one-character separator. -/
def jsSplit (s : String) (sep : Char) : List String :=
  (splitCharAux sep s.data []).map String.mk

/-- Two-digit zero padding for the fractional part of `toFixed(2)`. -/
def pad2 (n : Nat) : String :=
  if n < 10 then "0" ++ toString n else toString n

/-- JS `Number.prototype.toFixed(2)`: round to two decimals (half up on
the scaled value, written as the integer floor division
`⌊q·100 + 1/2⌋ = (200·num + den) div (2·den)` so it evaluates by integer
arithmetic) and print with exactly two fractional digits. -/
def toFixed2 (q : ℚ) : String :=
  let c : ℤ := (200 * q.num + (q.den : ℤ)).fdiv (2 * (q.den : ℤ))
  let a := c.natAbs
  (if c < 0 then "-" else "") ++ toString (a / 100) ++ "." ++ pad2 (a % 100)

/-- JS `Number(x)` on a nullable numeric column: `Number(null) = 0`. -/
def jsNumberOpt (o : Option ℚ) : ℚ := o.getD 0

/-- Abstracts the environment-dependent JS `Date.toLocaleString()` as an
injective rendering of the epoch-millisecond timestamp. -/
def jsToLocaleString (t : ℤ) : String := toString t

/-- Abstracts the environment-dependent JS `Date.toLocaleDateString()` as
an injective rendering of the epoch-millisecond timestamp. -/
def jsToLocaleDateString (t : ℤ) : String := toString t

/-- JS `c.toUpperCase()` on the first character: Lean's `Char.toUpper`
matches the JS behaviour on basic latin letters, which is all the field
names use. `field.charAt(0).toUpperCase() + field.slice(1)`. -/
def jsUpperFirst (s : String) : String :=
  match s.data with
  | [] => s
  | c :: cs => String.mk (c.toUpper :: cs)

/-- The `ExportFormat` string enum. -/
inductive ExportFormat where
  | CSV | EXCEL | PDF | JSON
deriving DecidableEq

/-- The string value of each `ExportFormat` member
(`CSV = "csv"`, `EXCEL = "excel"`, `PDF = "pdf"`, `JSON = "json"`). -/
def ExportFormat.value : ExportFormat → String
  | .CSV => "csv"
  | .EXCEL => "excel"
  | .PDF => "pdf"
  | .JSON => "json"

/-- The `ExportDataType` string enum (members used by the exporters). -/
inductive ExportDataType where
  | ORDERS | PRODUCTS | CUSTOMERS | SALES | INVENTORY | VENDORS
deriving DecidableEq

/-- The string value of each `ExportDataType` member. -/
def ExportDataType.value : ExportDataType → String
  | .ORDERS => "orders"
  | .PRODUCTS => "products"
  | .CUSTOMERS => "customers"
  | .SALES => "sales"
  | .INVENTORY => "inventory"
  | .VENDORS => "vendors"

/-- `new Date().toISOString().replace(/[:.]/g, "-")`: the ISO timestamp
with every `:` and `.` replaced by `-`. The ISO string itself is the
`nowIso` input; the replacement is modelled exactly. -/
def sanitizeTimestamp (nowIso : String) : String :=
  String.mk (nowIso.data.map fun c => if c = ':' ∨ c = '.' then '-' else c)

/-- `generateFilename`:
`` `${dataType}-export-${timestamp}.${format}` `` where `timestamp` is the
sanitized ISO creation time. -/
def generateFilename (dataType : ExportDataType) (format : ExportFormat)
    (nowIso : String) : String :=
  dataType.value ++ "-export-" ++ sanitizeTimestamp nowIso ++ "." ++ format.value

/-- `path.join(exportDir, filename)` with the export directory
`exports` under the working directory. -/
def exportFilePath (dataType : ExportDataType) (format : ExportFormat)
    (nowIso : String) : String :=
  "exports/" ++ generateFilename dataType format nowIso

/-- The error value thrown by all exporters
(`new ApiError(message, statusCode)`). -/
structure ApiError where
  message : String
  status : Nat
deriving DecidableEq

/-! ### Orders assembler (`exportOrders`) -/

/-- The filter keys `exportOrders` reads; `none` models an absent
(or falsy) query value, dates arrive already parsed to epoch ms. -/
structure OrderFilters where
  startDate : Option ℤ := none
  endDate : Option ℤ := none
  status : Option String := none
  paymentStatus : Option String := none

/-- The `Prisma.OrderWhereInput` shape `exportOrders` builds. -/
structure OrderWhere where
  createdAtGte : Option ℤ := none
  createdAtLte : Option ℤ := none
  status : Option String := none
  paymentStatus : Option String := none
deriving DecidableEq

/-- The filter-to-query translation of `exportOrders`: the `createdAt`
range is set only when `filters.startDate && filters.endDate` are both
truthy; `status` and `paymentStatus` copy over when present. -/
def buildOrdersWhere (f : OrderFilters) : OrderWhere :=
  let w : OrderWhere := {}
  let w := match f.startDate, f.endDate with
    | some sd, some ed => { w with createdAtGte := some sd, createdAtLte := some ed }
    | _, _ => w
  let w := match f.status with
    | some st => { w with status := some st }
    | none => w
  match f.paymentStatus with
  | some ps => { w with paymentStatus := some ps }
  | none => w

/-- The `user` selection joined into each order row. -/
structure OrderUserSel where
  email : String
  firstName : String
  lastName : String

/-- The `shippingAddress` relation joined into each order row. -/
structure AddressSel where
  street : String
  city : String
  state : String
  postalCode : String
  country : String

/-- One order item with its joined product selection. -/
structure OrderItemSel where
  quantity : ℚ
  productName : Option String

/-- A raw order row as returned by `prisma.order.findMany` with the
includes used by `exportOrders`. -/
structure RawOrder where
  id : String
  orderNumber : Option String := none
  user : Option OrderUserSel := none
  status : String := ""
  paymentStatus : String := ""
  totalAmount : ℚ := 0
  subtotalAmount : ℚ := 0
  taxAmount : ℚ := 0
  shippingAmount : ℚ := 0
  discountAmount : Option ℚ := none
  shippingAddress : Option AddressSel := none
  paymentMethod : String := ""
  createdAt : ℤ := 0
  items : List OrderItemSel := []

/-- Whether a raw order satisfies the built `OrderWhere` query
(the persistence layer's evaluation of the query is out of scope and is
modelled as the evident conjunction of the present bounds). -/
def orderMatchesWhere (w : OrderWhere) (o : RawOrder) : Bool :=
  (match w.createdAtGte with | none => true | some sd => decide (sd ≤ o.createdAt)) &&
  (match w.createdAtLte with | none => true | some ed => decide (o.createdAt ≤ ed)) &&
  (match w.status with | none => true | some st => o.status == st) &&
  (match w.paymentStatus with | none => true | some ps => o.paymentStatus == ps)

/-- `` order.items.map(item => `${item.product?.name || 'Unknown'} (${item.quantity})`).join('; ') `` -/
def orderItemsText (items : List OrderItemSel) : String :=
  String.intercalate "; "
    (items.map fun it =>
      (it.productName.getD "Unknown") ++ " (" ++ qToString it.quantity ++ ")")

/-- The formatted order record built by `exportOrders`, in object-literal
order. -/
def formatOrder (o : RawOrder) : List (String × JSVal) :=
  [ ("id", .s o.id)
  , ("orderNumber", .s (o.orderNumber.getD ((o.id.drop (o.id.length - 8)).toUpper)))
  , ("customerName", .s (match o.user with
      | some u => u.firstName ++ " " ++ u.lastName
      | none => "N/A"))
  , ("customerEmail", .s (match o.user with
      | some u => u.email
      | none => "N/A"))
  , ("status", .s o.status)
  , ("paymentStatus", .s o.paymentStatus)
  , ("totalAmount", .num o.totalAmount)
  , ("subtotalAmount", .num o.subtotalAmount)
  , ("taxAmount", .num o.taxAmount)
  , ("shippingAmount", .num o.shippingAmount)
  , ("discountAmount", .num (jsNumberOpt o.discountAmount))
  , ("shippingAddress", .s (match o.shippingAddress with
      | some a => a.street ++ ", " ++ a.city ++ ", " ++ a.state ++ " "
          ++ a.postalCode ++ ", " ++ a.country
      | none => "N/A"))
  , ("paymentMethod", .s o.paymentMethod)
  , ("createdAt", .s (jsToLocaleString o.createdAt))
  , ("itemCount", .num (o.items.length : ℚ))
  , ("items", .s (orderItemsText o.items)) ]

/-- The `fields` list of `exportOrders`. -/
def ordersFields : List String :=
  [ "id", "orderNumber", "customerName", "customerEmail", "status"
  , "paymentStatus", "totalAmount", "subtotalAmount", "taxAmount"
  , "shippingAmount", "discountAmount", "shippingAddress", "paymentMethod"
  , "createdAt", "itemCount", "items" ]

/-! ### Products / inventory assemblers (`exportProducts`, `exportInventory`) -/

/-- The filter keys `exportProducts` reads (range values arrive as
query-string values; `none` models an absent or falsy value). -/
structure ProductFilters where
  categoryId : Option String := none
  vendorId : Option String := none
  minPrice : Option ℚ := none
  maxPrice : Option ℚ := none
  inStock : Option String := none
  featured : Option String := none
  active : Option String := none

/-- The filter keys `exportInventory` reads. -/
structure InventoryFilters where
  categoryId : Option String := none
  vendorId : Option String := none
  minQuantity : Option ℚ := none
  maxQuantity : Option ℚ := none
  inStock : Option String := none

/-- The `quantity` sub-condition of a `Prisma.ProductWhereInput`. -/
structure QuantityCond where
  gt : Option ℚ := none
  gte : Option ℚ := none
  lte : Option ℚ := none
deriving DecidableEq

/-- The `Prisma.ProductWhereInput` shape built by `exportProducts` and
`exportInventory`. -/
structure ProductWhere where
  categoryId : Option String := none
  vendorId : Option String := none
  priceGte : Option ℚ := none
  priceLte : Option ℚ := none
  quantity : QuantityCond := {}
  isFeatured : Option Bool := none
  isActive : Option Bool := none
deriving DecidableEq

/-- The filter-to-query translation of `exportProducts`: the price range
composes from whichever of `minPrice`/`maxPrice` is present; `inStock`
sets `quantity` to `{ gt: 0 }` or `{ lte: 0 }`. -/
def buildProductsWhere (f : ProductFilters) : ProductWhere :=
  let w : ProductWhere := {}
  let w := match f.categoryId with
    | some c => { w with categoryId := some c }
    | none => w
  let w := match f.vendorId with
    | some v => { w with vendorId := some v }
    | none => w
  let w := match f.minPrice, f.maxPrice with
    | some lo, some hi => { w with priceGte := some lo, priceLte := some hi }
    | some lo, none => { w with priceGte := some lo }
    | none, some hi => { w with priceLte := some hi }
    | none, none => w
  let w := match f.inStock with
    | some v => { w with quantity := if v = "true" then { gt := some 0 } else { lte := some 0 } }
    | none => w
  let w := match f.featured with
    | some v => { w with isFeatured := some (v = "true") }
    | none => w
  match f.active with
  | some v => { w with isActive := some (v = "true") }
  | none => w

/-- The filter-to-query translation of `exportInventory`: `minQuantity`
sets `quantity.gte`, `maxQuantity` spreads the existing condition and adds
`lte`, and `inStock` (checked last) replaces the whole `quantity`
condition. -/
def buildInventoryWhere (f : InventoryFilters) : ProductWhere :=
  let w : ProductWhere := {}
  let w := match f.categoryId with
    | some c => { w with categoryId := some c }
    | none => w
  let w := match f.vendorId with
    | some v => { w with vendorId := some v }
    | none => w
  let w := match f.minQuantity with
    | some lo => { w with quantity := { gte := some lo } }
    | none => w
  let w := match f.maxQuantity with
    | some hi => { w with quantity := { w.quantity with lte := some hi } }
    | none => w
  match f.inStock with
  | some v => { w with quantity := if v = "true" then { gt := some 0 } else { lte := some 0 } }
  | none => w

/-- A raw product row as returned by `prisma.product.findMany` with the
includes used by `exportProducts` and `exportInventory` (review rows carry
only their rating). -/
structure RawProduct where
  id : String
  name : String := ""
  sku : String := ""
  categoryId : Option String := none
  vendorId : Option String := none
  categoryName : Option String := none
  vendorBusinessName : Option String := none
  price : ℚ := 0
  compareAtPrice : Option ℚ := none
  quantity : ℚ := 0
  isFeatured : Bool := false
  isActive : Bool := false
  reviews : List ℚ := []
  createdAt : ℤ := 0
  updatedAt : ℤ := 0

/-- Whether a raw product satisfies a built `ProductWhere` query. -/
def productMatchesWhere (w : ProductWhere) (p : RawProduct) : Bool :=
  (match w.categoryId with | none => true | some c => p.categoryId == some c) &&
  (match w.vendorId with | none => true | some v => p.vendorId == some v) &&
  (match w.priceGte with | none => true | some lo => decide (lo ≤ p.price)) &&
  (match w.priceLte with | none => true | some hi => decide (p.price ≤ hi)) &&
  (match w.quantity.gt with | none => true | some b => decide (b < p.quantity)) &&
  (match w.quantity.gte with | none => true | some b => decide (b ≤ p.quantity)) &&
  (match w.quantity.lte with | none => true | some b => decide (p.quantity ≤ b)) &&
  (match w.isFeatured with | none => true | some b => p.isFeatured == b) &&
  (match w.isActive with | none => true | some b => p.isActive == b)

/-- The formatted product record built by `exportProducts`, in
object-literal order. -/
def formatProduct (p : RawProduct) : List (String × JSVal) :=
  [ ("id", .s p.id)
  , ("name", .s p.name)
  , ("sku", .s p.sku)
  , ("category", .s (p.categoryName.getD "N/A"))
  , ("vendor", .s (p.vendorBusinessName.getD "N/A"))
  , ("price", .num p.price)
  , ("compareAtPrice", .num (jsNumberOpt p.compareAtPrice))
  , ("quantity", .num p.quantity)
  , ("inStock", .s (if 0 < p.quantity then "Yes" else "No"))
  , ("featured", .s (if p.isFeatured then "Yes" else "No"))
  , ("active", .s (if p.isActive then "Yes" else "No"))
  , ("averageRating", .s (if 0 < p.reviews.length
      then toFixed2 (p.reviews.sum / (p.reviews.length : ℚ))
      else "0.00"))
  , ("reviewCount", .num (p.reviews.length : ℚ))
  , ("createdAt", .s (jsToLocaleString p.createdAt))
  , ("updatedAt", .s (jsToLocaleString p.updatedAt)) ]

/-- The `fields` list of `exportProducts`. -/
def productsFields : List String :=
  [ "id", "name", "sku", "category", "vendor", "price", "compareAtPrice"
  , "quantity", "inStock", "featured", "active", "averageRating"
  , "reviewCount", "createdAt", "updatedAt" ]

/-- The stock status thresholds of `exportInventory`. -/
def inventoryStatus (quantity : ℚ) : String :=
  if quantity ≤ 0 then "Out of Stock"
  else if quantity ≤ 5 then "Low Stock"
  else if quantity ≤ 20 then "Medium Stock"
  else "Good Stock"

/-- The formatted inventory record built by `exportInventory`, in
object-literal order. -/
def formatInventory (p : RawProduct) : List (String × JSVal) :=
  [ ("id", .s p.id)
  , ("sku", .s p.sku)
  , ("name", .s p.name)
  , ("category", .s (p.categoryName.getD "N/A"))
  , ("vendor", .s (p.vendorBusinessName.getD "N/A"))
  , ("quantity", .num p.quantity)
  , ("price", .num p.price)
  , ("totalValue", .s (toFixed2 (p.quantity * p.price)))
  , ("status", .s (inventoryStatus p.quantity))
  , ("lastUpdated", .s (jsToLocaleString p.updatedAt)) ]

/-- The `fields` list of `exportInventory`. -/
def inventoryFields : List String :=
  [ "id", "sku", "name", "category", "vendor", "quantity", "price"
  , "totalValue", "status", "lastUpdated" ]

/-! ### Customers assembler (`exportCustomers`) -/

/-- The filter keys `exportCustomers` reads. -/
structure CustomerFilters where
  startDate : Option ℤ := none
  endDate : Option ℤ := none
  isActive : Option String := none

/-- The `Prisma.UserWhereInput` shape `exportCustomers` builds
(`role` is always constrained to `CUSTOMER`). -/
structure UserWhere where
  role : String := "CUSTOMER"
  createdAtGte : Option ℤ := none
  createdAtLte : Option ℤ := none
  isActive : Option Bool := none
deriving DecidableEq

/-- The filter-to-query translation of `exportCustomers`: the `createdAt`
range is set only when both `startDate` and `endDate` are truthy. -/
def buildCustomersWhere (f : CustomerFilters) : UserWhere :=
  let w : UserWhere := {}
  let w := match f.startDate, f.endDate with
    | some sd, some ed => { w with createdAtGte := some sd, createdAtLte := some ed }
    | _, _ => w
  match f.isActive with
  | some v => { w with isActive := some (v = "true") }
  | none => w

/-- An order selection (`totalAmount`, `status`) joined into a customer
row. -/
structure CustOrderSel where
  totalAmount : ℚ
  status : String

/-- A raw customer row as returned by `prisma.user.findMany` with the
includes used by `exportCustomers` (`addresses` kept as its length). -/
structure RawCustomer where
  id : String
  role : String := "CUSTOMER"
  email : String := ""
  firstName : String := ""
  lastName : String := ""
  phone : Option String := none
  country : Option String := none
  isActive : Bool := true
  orders : List CustOrderSel := []
  loyaltyPoints : Option ℚ := none
  createdAt : ℤ := 0
  lastLoginAt : Option ℤ := none
  addressCount : Nat := 0

/-- Whether a raw customer satisfies a built `UserWhere` query. -/
def customerMatchesWhere (w : UserWhere) (c : RawCustomer) : Bool :=
  (c.role == w.role) &&
  (match w.createdAtGte with | none => true | some sd => decide (sd ≤ c.createdAt)) &&
  (match w.createdAtLte with | none => true | some ed => decide (c.createdAt ≤ ed)) &&
  (match w.isActive with | none => true | some b => c.isActive == b)

/-- The formatted customer record built by `exportCustomers`:
completed orders are those with status `DELIVERED` or `SHIPPED`. -/
def formatCustomer (c : RawCustomer) : List (String × JSVal) :=
  let completed := c.orders.filter fun o => o.status == "DELIVERED" || o.status == "SHIPPED"
  let totalSpent : ℚ := (completed.map (·.totalAmount)).sum
  let orderCount := completed.length
  let averageOrderValue : ℚ := if 0 < orderCount then totalSpent / (orderCount : ℚ) else 0
  [ ("id", .s c.id)
  , ("email", .s c.email)
  , ("firstName", .s c.firstName)
  , ("lastName", .s c.lastName)
  , ("fullName", .s (c.firstName ++ " " ++ c.lastName))
  , ("phone", .s (c.phone.getD "N/A"))
  , ("country", .s (c.country.getD "N/A"))
  , ("isActive", .s (if c.isActive then "Yes" else "No"))
  , ("orderCount", .num (orderCount : ℚ))
  , ("totalSpent", .s (toFixed2 totalSpent))
  , ("averageOrderValue", .s (toFixed2 averageOrderValue))
  , ("loyaltyPoints", .num (jsNumberOpt c.loyaltyPoints))
  , ("createdAt", .s (jsToLocaleString c.createdAt))
  , ("lastLoginAt", .s (match c.lastLoginAt with
      | some t => jsToLocaleString t
      | none => "Never"))
  , ("addressCount", .num (c.addressCount : ℚ)) ]

/-- The `fields` list of `exportCustomers`. -/
def customersFields : List String :=
  [ "id", "email", "fullName", "firstName", "lastName", "phone", "country"
  , "isActive", "orderCount", "totalSpent", "averageOrderValue"
  , "loyaltyPoints", "createdAt", "lastLoginAt", "addressCount" ]

/-! ### Vendors assembler (`exportVendors`) -/

/-- The filter keys `exportVendors` reads. -/
structure VendorFilters where
  status : Option String := none
  startDate : Option ℤ := none
  endDate : Option ℤ := none

/-- The `Prisma.VendorWhereInput` shape `exportVendors` builds. -/
structure VendorWhere where
  status : Option String := none
  createdAtGte : Option ℤ := none
  createdAtLte : Option ℤ := none
deriving DecidableEq

/-- The filter-to-query translation of `exportVendors`. -/
def buildVendorsWhere (f : VendorFilters) : VendorWhere :=
  let w : VendorWhere := {}
  let w := match f.status with
    | some st => { w with status := some st }
    | none => w
  match f.startDate, f.endDate with
  | some sd, some ed => { w with createdAtGte := some sd, createdAtLte := some ed }
  | _, _ => w

/-- A raw vendor row as returned by `prisma.vendor.findMany` with the
product selection (`id`, `price`) kept as the list of prices. -/
structure RawVendor where
  id : String
  businessName : String := ""
  contactEmail : String := ""
  contactPhone : Option String := none
  status : String := ""
  commissionRate : ℚ := 0
  productPrices : List ℚ := []
  createdAt : ℤ := 0
  updatedAt : ℤ := 0

/-- Whether a raw vendor satisfies a built `VendorWhere` query. -/
def vendorMatchesWhere (w : VendorWhere) (v : RawVendor) : Bool :=
  (match w.status with | none => true | some st => v.status == st) &&
  (match w.createdAtGte with | none => true | some sd => decide (sd ≤ v.createdAt)) &&
  (match w.createdAtLte with | none => true | some ed => decide (v.createdAt ≤ ed))

/-- The formatted vendor record built by `exportVendors`. -/
def formatVendor (v : RawVendor) : List (String × JSVal) :=
  [ ("id", .s v.id)
  , ("businessName", .s v.businessName)
  , ("contactEmail", .s v.contactEmail)
  , ("contactPhone", .s (v.contactPhone.getD "N/A"))
  , ("status", .s v.status)
  , ("commissionRate", .num v.commissionRate)
  , ("totalProducts", .num (v.productPrices.length : ℚ))
  , ("totalValue", .s (toFixed2 v.productPrices.sum))
  , ("createdAt", .s (jsToLocaleString v.createdAt))
  , ("updatedAt", .s (jsToLocaleString v.updatedAt)) ]

/-- The `fields` list of `exportVendors`. -/
def vendorsFields : List String :=
  [ "id", "businessName", "contactEmail", "contactPhone", "status"
  , "commissionRate", "totalProducts", "totalValue", "createdAt"
  , "updatedAt" ]

/-! ### Sales assembler (`exportSales`) -/

/-- The filter keys `exportSales` reads. -/
structure SalesFilters where
  startDate : Option ℤ := none
  endDate : Option ℤ := none
  interval : Option String := none

/-- The SQL bucketing expression `exportSales` selects:
`filters.interval || "daily"`, then hourly/weekly/monthly each pick a
`DATE_TRUNC`, and anything else keeps the daily `DATE` truncation. -/
def salesDateFormat (interval : Option String) : String :=
  let i := interval.getD "daily"
  if i = "hourly" then "DATE_TRUNC(\x27hour\x27, \"createdAt\")"
  else if i = "weekly" then "DATE_TRUNC(\x27week\x27, \"createdAt\")"
  else if i = "monthly" then "DATE_TRUNC(\x27month\x27, \"createdAt\")"
  else "DATE(\"createdAt\")"

/-- The four bucketing expressions the raw query can use. -/
def salesDateFormats : List String :=
  [ "DATE_TRUNC(\x27hour\x27, \"createdAt\")"
  , "DATE_TRUNC(\x27week\x27, \"createdAt\")"
  , "DATE_TRUNC(\x27month\x27, \"createdAt\")"
  , "DATE(\"createdAt\")" ]

/-- Date-range resolution of `exportSales`: `endDate` defaults to the
current wall clock, `startDate` defaults to thirty days before the
resolved end (`endDate.getTime() - 30 * 24 * 60 * 60 * 1000`). -/
def resolveSalesRange (f : SalesFilters) (now : ℤ) : ℤ × ℤ :=
  let endDate := f.endDate.getD now
  let startDate := f.startDate.getD (endDate - 2592000000)
  (startDate, endDate)

/-- One row of the raw grouped query result. The aggregate columns are
nullable; Postgres lower-cases the unquoted aliases, so the code reads
`item.avgordervalue` and `item.itemssold`. -/
structure RawBucket where
  date : ℤ
  sales : Option ℚ := none
  orders : Option ℚ := none
  avgordervalue : Option ℚ := none
  itemssold : Option ℚ := none

/-- The external data interface executing the raw sales query: it is
given the resolved range and the bucketing expression and returns one row
per bucket. The query's `ORDER BY date ASC` is modelled by sorting the
returned rows by bucket date. -/
def runSalesQuery (dsQuery : ℤ → ℤ → String → List RawBucket)
    (startDate endDate : ℤ) (dateFormat : String) : List RawBucket :=
  (dsQuery startDate endDate dateFormat).mergeSort fun a b => decide (a.date ≤ b.date)

/-- The formatted sales record built by `exportSales`, in object-literal
order; `Number(null)` is `0`, and `Number(item.itemssold) || 0` keeps a
missing quantity at `0`. -/
def formatSalesBucket (b : RawBucket) : List (String × JSVal) :=
  [ ("date", .s (jsToLocaleDateString b.date))
  , ("sales", .s (toFixed2 (jsNumberOpt b.sales)))
  , ("orders", .num (jsNumberOpt b.orders))
  , ("avgOrderValue", .s (toFixed2 (jsNumberOpt b.avgordervalue)))
  , ("itemsSold", .num (jsNumberOpt b.itemssold)) ]

/-- The `fields` list of `exportSales`. -/
def salesFields : List String :=
  ["date", "sales", "orders", "avgOrderValue", "itemsSold"]

/-- The bucket list `exportSales` works from, given the data interface,
the filters and the wall clock. -/
def salesBuckets (dsQuery : ℤ → ℤ → String → List RawBucket)
    (f : SalesFilters) (now : ℤ) : List RawBucket :=
  runSalesQuery dsQuery (resolveSalesRange f now).1 (resolveSalesRange f now).2
    (salesDateFormat f.interval)

/-- The formatted sales row set produced by `exportSales`. -/
def exportSalesRows (dsQuery : ℤ → ℤ → String → List RawBucket)
    (f : SalesFilters) (now : ℤ) : List (List (String × JSVal)) :=
  (salesBuckets dsQuery f now).map formatSalesBucket

/-! ### DelimitedText renderer (`exportToCsv`, via json2csv) -/

/-- CSV quoting of a textual value with the json2csv defaults: wrap in
double quotes, doubling embedded quotes. -/
def csvQuote (s : String) : String :=
  "\"" ++ String.mk (s.data.flatMap fun c => if c = '"' then ['"', '"'] else [c]) ++ "\""

/-- One CSV cell: strings quoted, numbers and booleans plain, the missing
sentinel empty. -/
def csvCell (v : JSVal) : String :=
  match v with
  | .s t => csvQuote t
  | .num q => qToString q
  | .b true => "true"
  | .b false => "false"
  | .null => ""
  | .obj _ => ""

/-- The CSV header line: field names as given (no case transformation),
quoted. -/
def csvHeaderLine (fields : List String) : String :=
  String.intercalate "," (fields.map csvQuote)

/-- One CSV data line: the record projected at each field path in field
order. -/
def csvRowLine (fields : List String) (row : List (String × JSVal)) : String :=
  String.intercalate "," (fields.map fun f => csvCell (projectField (.obj row) (jsSplit f '.')))

/-- `parser.parse(data)`: the full CSV text. -/
def csvOfRows (fields : List String) (rows : List (List (String × JSVal))) : String :=
  String.intercalate "\n" (csvHeaderLine fields :: rows.map (csvRowLine fields))

/-- A filesystem operation performed by a renderer. -/
inductive FileOp where
  | write (path : String) (content : String)
  | rename (src dst : String)

/-- The filesystem operations `exportToCsv` performs after building the
CSV text: a single `fs.writeFileSync(filePath, csv)` straight to the
final path. -/
def exportToCsvOps (rows : List (List (String × JSVal))) (fields : List String)
    (dataType : ExportDataType) (nowIso : String) : List FileOp :=
  [.write (exportFilePath dataType .CSV nowIso) (csvOfRows fields rows)]

/-- A filesystem state: path to file contents. -/
def FS : Type := String → Option String

/-- The empty filesystem. -/
def emptyFS : FS := fun _ => none

/-- Effect of one completed operation on the filesystem. -/
def applyOp (fs : FS) : FileOp → FS
  | .write p c => fun q => if q = p then some c else fs q
  | .rename src dst => fun q =>
      if q = dst then fs src else if q = src then none else fs q

/-- Run a list of operations where the operation at index `failIdx`
fails: a failing write stops after `failBytes` characters and leaves that
prefix at its target path; a failing rename leaves the filesystem
unchanged; subsequent operations do not run. -/
def runOpsFail : List FileOp → Nat → Nat → FS → FS
  | [], _, _, fs => fs
  | op :: _, 0, failBytes, fs =>
      match op with
      | .write p c => fun q => if q = p then some (String.mk (c.data.take failBytes)) else fs q
      | .rename _ _ => fs
  | op :: rest, n + 1, failBytes, fs => runOpsFail rest n failBytes (applyOp fs op)

/-! ### Workbook renderer (`exportToExcel`) -/

/-- The worksheet `exportToExcel` builds: one sheet named after the data
type, a header row of first-letter-uppercased field names with bold font
and a light fill, and one data row per record with the missing sentinel
rendered as the empty string. -/
structure ExcelSheet where
  name : String
  headerRow : List String
  dataRows : List (List JSVal)
  headerBold : Bool
  headerFillColor : String

/-- The Excel data cell for a record and a field: dotted-path projection
by the original (untransformed) field name, `null`/absent as `""`. -/
def excelDataCell (row : List (String × JSVal)) (field : String) : JSVal :=
  cellOrEmpty (projectField (.obj row) (jsSplit field '.'))

/-- `exportToExcel` as a pure worksheet construction. -/
def exportToExcelSheet (data : List (List (String × JSVal))) (fields : List String)
    (dataType : ExportDataType) : ExcelSheet :=
  { name := dataType.value
    headerRow := fields.map jsUpperFirst
    dataRows := data.map fun item => fields.map (excelDataCell item)
    headerBold := true
    headerFillColor := "FFE0E0E0" }

/-! ### PaginatedDocument renderer (`exportToPdf`) -/

/-- Table geometry constants of `exportToPdf` (`margin: 50`, letter page
height 792pt, `tableTop = 150`, header band height 30, row height 25,
page-break threshold `doc.page.height - 100`, continuation pages restart
at `currentTop = 50`). -/
def pdfPageHeight : Nat := 792

/-- The row-placement loop of `exportToPdf`: each data row is drawn at
the current vertical offset on the current page, the offset advances by
the row height, and when it passes `pageHeight - 100` a new page is
started with the offset reset to 50. Returns the `(page, top)` placement
of every row (in order) and the page the loop ends on. -/
def pdfLoop : Nat → Nat → Nat → List (Nat × Nat) × Nat
  | 0, page, _ => ([], page)
  | n + 1, page, top =>
      if top + 25 > pdfPageHeight - 100 then
        ((page, top) :: (pdfLoop n (page + 1) 50).1, (pdfLoop n (page + 1) 50).2)
      else
        ((page, top) :: (pdfLoop n page (top + 25)).1, (pdfLoop n page (top + 25)).2)

/-- The PDF data cell text for a record and a field: dotted-path
projection by the original field name, stringified, `null`/absent as
`""`. -/
def pdfCellText (row : List (String × JSVal)) (field : String) : String :=
  jsValToString (projectField (.obj row) (jsSplit field '.'))

/-- The document `exportToPdf` builds: title, generation timestamp,
a header band drawn once (page 0, before the row loop), the row
placements, and a trailing footer with the total record count on the page
the loop ends on. -/
structure PdfDoc where
  title : String
  headerBandPage : Nat
  headerCells : List String
  placements : List (Nat × Nat)
  footerText : String
  footerPage : Nat

/-- `exportToPdf` as a pure layout computation (rows start at
`tableTop + 30 = 180`). -/
def exportToPdfDoc (data : List (List (String × JSVal))) (fields : List String)
    (title : String) : PdfDoc :=
  { title := title
    headerBandPage := 0
    headerCells := fields.map jsUpperFirst
    placements := (pdfLoop data.length 0 180).1
    footerText := "Total Records: " ++ toString data.length
    footerPage := (pdfLoop data.length 0 180).2 }

/-! ### StructuredDump renderer (`exportToJson`) and dispatch -/

/-- `exportToJson` serializes the records as an ordered list of
field-to-value mappings; the dump content is the record list itself. -/
def exportToJsonRows (data : List (List (String × JSVal))) : List (List (String × JSVal)) :=
  data

/-- A renderer invocation as dispatched by an exporter's format switch. -/
inductive RenderCall where
  | csv (rows : List (List (String × JSVal))) (fields : List String) (dataType : ExportDataType)
  | excel (rows : List (List (String × JSVal))) (fields : List String) (dataType : ExportDataType)
  | pdf (rows : List (List (String × JSVal))) (fields : List String) (dataType : ExportDataType) (title : String)
  | json (rows : List (List (String × JSVal))) (dataType : ExportDataType)

/-- The outcome of one exporter call: the dispatched renderer invocation
(or the thrown `ApiError`), paired with the number of data-source calls
the exporter made before returning. -/
structure ExportRun where
  result : Except ApiError RenderCall
  dsCalls : Nat

/-- The format switch shared by every exporter (`switch (format)` over
the string enum): it runs after the data has been fetched and formatted,
and its default branch throws `Unsupported export format`. -/
def dispatchFormat (format : String) (rows : List (List (String × JSVal)))
    (fields : List String) (dataType : ExportDataType) (title : String) :
    Except ApiError RenderCall :=
  if format = "csv" then .ok (.csv rows fields dataType)
  else if format = "excel" then .ok (.excel rows fields dataType)
  else if format = "pdf" then .ok (.pdf rows fields dataType title)
  else if format = "json" then .ok (.json rows dataType)
  else .error ⟨"Unsupported export format: " ++ format, 400⟩

/-- `exportOrders`: build the where-input, fetch (one data-source call,
ordered by `createdAt` descending), format, then dispatch on the format. -/
def exportOrdersRun (format : String) (filters : OrderFilters)
    (dsOrders : List RawOrder) : ExportRun :=
  let w := buildOrdersWhere filters
  let fetched := ((dsOrders.filter (orderMatchesWhere w)).mergeSort
    fun a b => decide (b.createdAt ≤ a.createdAt))
  let rows := fetched.map formatOrder
  { result := dispatchFormat format rows ordersFields .ORDERS "Orders Report"
    dsCalls := 1 }

/-- `exportProducts`: one `findMany` call ordered by `name` ascending,
then the format switch. -/
def exportProductsRun (format : String) (filters : ProductFilters)
    (dsProducts : List RawProduct) : ExportRun :=
  let w := buildProductsWhere filters
  let fetched := ((dsProducts.filter (productMatchesWhere w)).mergeSort
    fun a b => decide (a.name ≤ b.name))
  let rows := fetched.map formatProduct
  { result := dispatchFormat format rows productsFields .PRODUCTS "Products Report"
    dsCalls := 1 }

/-- `exportCustomers`: one `findMany` call ordered by `lastName`
ascending, then the format switch. -/
def exportCustomersRun (format : String) (filters : CustomerFilters)
    (dsCustomers : List RawCustomer) : ExportRun :=
  let w := buildCustomersWhere filters
  let fetched := ((dsCustomers.filter (customerMatchesWhere w)).mergeSort
    fun a b => decide (a.lastName ≤ b.lastName))
  let rows := fetched.map formatCustomer
  { result := dispatchFormat format rows customersFields .CUSTOMERS "Customers Report"
    dsCalls := 1 }

/-- `exportSales`: one raw grouped query, then the format switch. -/
def exportSalesRun (format : String) (filters : SalesFilters)
    (dsQuery : ℤ → ℤ → String → List RawBucket) (now : ℤ) : ExportRun :=
  let rows := exportSalesRows dsQuery filters now
  { result := dispatchFormat format rows salesFields .SALES "Sales Report"
    dsCalls := 1 }

/-- `exportInventory`: one `findMany` call ordered by `quantity`
ascending, then the format switch. -/
def exportInventoryRun (format : String) (filters : InventoryFilters)
    (dsProducts : List RawProduct) : ExportRun :=
  let w := buildInventoryWhere filters
  let fetched := ((dsProducts.filter (productMatchesWhere w)).mergeSort
    fun a b => decide (a.quantity ≤ b.quantity))
  let rows := fetched.map formatInventory
  { result := dispatchFormat format rows inventoryFields .INVENTORY "Inventory Report"
    dsCalls := 1 }

/-- `exportVendors`: one `findMany` call ordered by `businessName`
ascending, then the format switch. -/
def exportVendorsRun (format : String) (filters : VendorFilters)
    (dsVendors : List RawVendor) : ExportRun :=
  let w := buildVendorsWhere filters
  let fetched := ((dsVendors.filter (vendorMatchesWhere w)).mergeSort
    fun a b => decide (a.businessName ≤ b.businessName))
  let rows := fetched.map formatVendor
  { result := dispatchFormat format rows vendorsFields .VENDORS "Vendors Report"
    dsCalls := 1 }

/-! ## Theorems -/

/-- The projection of the missing sentinel along any remaining path stays
the missing sentinel. -/
theorem projectPathSpec_null (path : List String) :
    projectPathSpec .null path = .null := by
  cases path <;> rfl

/-- The reducer-based projection agrees with the spec-worded recursive
projection on every record and path. -/
theorem projectField_eq_projectPathSpec (path : List String) (v : JSVal) :
    projectField v path = projectPathSpec v path := by
  induction path generalizing v with
  | nil => cases v <;> rfl
  | cons k rest ih =>
    have hstep : projectField v (k :: rest) = projectField (projectStep v k) rest := rfl
    rw [hstep, ih]
    cases v with
    | obj fs =>
      cases h : jsLookup fs k with
      | some w => simp [projectStep, projectPathSpec, h]
      | none => simp [projectStep, projectPathSpec, h, projectPathSpec_null]
    | s t => simp [projectStep, projectPathSpec, projectPathSpec_null]
    | num q => simp [projectStep, projectPathSpec, projectPathSpec_null]
    | b bv => simp [projectStep, projectPathSpec, projectPathSpec_null]
    | null => simp [projectStep, projectPathSpec, projectPathSpec_null]

/-- C6: field projection used by the renderers never throws — it follows
each dot-separated segment through nested mappings, returns the missing
sentinel whenever a segment is absent or an intermediate value is not a
mapping (the sentinel renders as the empty string), and on the three
reference inputs gives `1`, the sentinel, and the sentinel. -/
theorem c6_projection_never_throws :
    (∀ (v : JSVal) (path : List String), projectField v path = projectPathSpec v path) ∧
    projectField (.obj [("a", .obj [("b", .num 1)])]) (jsSplit "a.b" '.') = .num 1 ∧
    projectField (.obj [("a", .num 1)]) (jsSplit "a.b" '.') = .null ∧
    projectField (.obj []) (jsSplit "x" '.') = .null ∧
    cellOrEmpty .null = .s "" ∧
    jsValToString .null = "" :=
  ⟨fun v path => projectField_eq_projectPathSpec path v, rfl, rfl, rfl, rfl, rfl⟩

/-- C3 counterexample: for the workbook format the produced filename ends
in `.excel` (the enum's string value), not in `.xlsx` as claimed. -/
theorem c3_counterexample :
    generateFilename .ORDERS .EXCEL "2024-05-06T07:08:09.123Z" =
      "orders-export-2024-05-06T07-08-09-123Z.excel" ∧
    generateFilename .ORDERS .EXCEL "2024-05-06T07:08:09.123Z" ≠
      "orders-export-2024-05-06T07-08-09-123Z.xlsx" := by
  constructor
  · decide
  · decide

/-- C3 amended: the filename is
`{kind}-export-{timestamp}.{extension}` where the timestamp is the ISO
creation time with every `:` and `.` replaced by `-`, and the extension
is the format's enum value: `csv`, `excel` (not `xlsx`), `pdf`, `json`. -/
theorem c3_filename_shape (dataType : ExportDataType) (format : ExportFormat)
    (nowIso : String) :
    generateFilename dataType format nowIso =
      dataType.value ++ "-export-" ++ sanitizeTimestamp nowIso ++ "." ++ format.value ∧
    (∀ c ∈ (sanitizeTimestamp nowIso).data, c ≠ ':' ∧ c ≠ '.') ∧
    ExportFormat.value .CSV = "csv" ∧
    ExportFormat.value .EXCEL = "excel" ∧
    ExportFormat.value .PDF = "pdf" ∧
    ExportFormat.value .JSON = "json" := by
  refine ⟨rfl, ?_, rfl, rfl, rfl, rfl⟩
  intro c hc
  simp only [sanitizeTimestamp] at hc
  obtain ⟨c0, _, rfl⟩ := List.mem_map.mp hc
  by_cases h : c0 = ':' ∨ c0 = '.'
  · simp [h]
  · simp only [if_neg h]
    push_neg at h
    exact h

/-- C3 amended, witnessed at a concrete timestamp and format. -/
theorem c3_filename_shape_witness :
    ('-' ∈ (sanitizeTimestamp "2024-05-06T07:08:09.123Z").data → '-' ≠ ':' ∧ '-' ≠ '.') ∧
    generateFilename .SALES .PDF "2024-05-06T07:08:09.123Z" =
      ExportDataType.value .SALES ++ "-export-" ++
        sanitizeTimestamp "2024-05-06T07:08:09.123Z" ++ "." ++ ExportFormat.value .PDF :=
  ⟨fun h => (c3_filename_shape .SALES .PDF "2024-05-06T07:08:09.123Z").2.1 '-' h,
   (c3_filename_shape .SALES .PDF "2024-05-06T07:08:09.123Z").1⟩

/-- `toFixed(2)` of zero renders as `0.00`. -/
theorem toFixed2_zero : toFixed2 0 = "0.00" := by decide

/-- A `toFixed(2)` rendering is never the empty string (it always
contains the decimal point). -/
theorem toFixed2_ne_empty (q : ℚ) : toFixed2 q ≠ "" := by
  unfold toFixed2
  intro h
  have h2 := congrArg String.data h
  simp [String.data_append] at h2

/-- C9: missing numeric aggregates default to zero before formatting: a
null summed amount or null mean amount renders as `0.00`, a null summed
item quantity stays the number `0`, a product with no reviews renders an
average rating of `0.00`, a null discount amount renders as the number
`0`, and a `toFixed(2)` rendering is never empty. -/
theorem c9_missing_aggregates_default_zero :
    (∀ b : RawBucket, b.sales = none →
      jsLookup (formatSalesBucket b) "sales" = some (.s "0.00")) ∧
    (∀ b : RawBucket, b.avgordervalue = none →
      jsLookup (formatSalesBucket b) "avgOrderValue" = some (.s "0.00")) ∧
    (∀ b : RawBucket, b.itemssold = none →
      jsLookup (formatSalesBucket b) "itemsSold" = some (.num 0)) ∧
    (∀ p : RawProduct, p.reviews = [] →
      jsLookup (formatProduct p) "averageRating" = some (.s "0.00")) ∧
    (∀ o : RawOrder, o.discountAmount = none →
      jsLookup (formatOrder o) "discountAmount" = some (.num 0)) ∧
    (∀ q : ℚ, toFixed2 q ≠ "") := by
  refine ⟨?_, ?_, ?_, ?_, ?_, toFixed2_ne_empty⟩
  · intro b h
    simp [formatSalesBucket, jsLookup, h, jsNumberOpt, toFixed2_zero]
  · intro b h
    simp [formatSalesBucket, jsLookup, h, jsNumberOpt, toFixed2_zero]
  · intro b h
    simp [formatSalesBucket, jsLookup, h, jsNumberOpt]
  · intro p h
    simp [formatProduct, jsLookup, h]
  · intro o h
    simp [formatOrder, jsLookup, h, jsNumberOpt]

/-- C9 witnessed on a concrete bucket whose aggregates are all null. -/
theorem c9_missing_aggregates_witness :
    jsLookup (formatSalesBucket { date := 1700000000000 }) "sales" = some (.s "0.00") ∧
    jsLookup (formatSalesBucket { date := 1700000000000 }) "itemsSold" = some (.num 0) ∧
    jsLookup (formatProduct { id := "p1" }) "averageRating" = some (.s "0.00") ∧
    jsLookup (formatOrder { id := "o1" }) "discountAmount" = some (.num 0) :=
  ⟨c9_missing_aggregates_default_zero.1 { date := 1700000000000 } rfl,
   c9_missing_aggregates_default_zero.2.2.1 { date := 1700000000000 } rfl,
   c9_missing_aggregates_default_zero.2.2.2.1 { id := "p1" } rfl,
   c9_missing_aggregates_default_zero.2.2.2.2.1 { id := "o1" } rfl⟩

/-- On a basic latin lowercase letter, `toUpper` subtracts 32 from the
code point. -/
theorem char_toUpper_toNat {c : Char} (h1 : 97 ≤ c.toNat) (h2 : c.toNat ≤ 122) :
    (Char.toUpper c).toNat = c.toNat - 32 := by
  unfold Char.toUpper
  rw [if_pos ⟨h1, h2⟩]
  have hv : (c.toNat - 32).isValidChar := Or.inl (by omega)
  simp only [Char.toNat, UInt32.toNat] at hv
  simp [Char.ofNat, Char.ofNatAux, Char.toNat, UInt32.toNat, hv]

/-- First-letter capitalization changes any field name that starts with
a basic latin lowercase letter. -/
theorem jsUpperFirst_ne {s : String} {c : Char} {cs : List Char}
    (hd : s.data = c :: cs) (h1 : 97 ≤ c.toNat) (h2 : c.toNat ≤ 122) :
    jsUpperFirst s ≠ s := by
  obtain ⟨data⟩ := s
  replace hd : data = c :: cs := hd
  subst hd
  show String.mk (c.toUpper :: cs) ≠ String.mk (c :: cs)
  intro h
  replace h : c.toUpper :: cs = c :: cs := congrArg String.data h
  simp only [List.cons.injEq] at h
  have hn := congrArg Char.toNat h.1
  rw [char_toUpper_toNat h1 h2] at hn
  omega

/-- C10: the workbook and paginated-document renderers uppercase the
first character of each field name in their header cells while data-cell
lookup still uses the original field name, so for a field starting with a
lowercase letter those headers differ from the delimited-text header,
which uses field names as given. -/
theorem c10_header_capitalization (f : String) (c : Char) (cs : List Char)
    (hd : f.data = c :: cs) (h1 : 97 ≤ c.toNat) (h2 : c.toNat ≤ 122) :
    (∀ data fields dataType,
      (exportToExcelSheet data fields dataType).headerRow = fields.map jsUpperFirst) ∧
    (∀ data fields title,
      (exportToPdfDoc data fields title).headerCells = fields.map jsUpperFirst) ∧
    (∀ fields, csvHeaderLine fields = String.intercalate "," (fields.map csvQuote)) ∧
    jsUpperFirst f ≠ f ∧
    (∀ row, excelDataCell row f = cellOrEmpty (projectField (.obj row) (jsSplit f '.'))) ∧
    (∀ row, pdfCellText row f = jsValToString (projectField (.obj row) (jsSplit f '.'))) :=
  ⟨fun _ _ _ => rfl, fun _ _ _ => rfl, fun _ => rfl,
   jsUpperFirst_ne hd h1 h2, fun _ => rfl, fun _ => rfl⟩

/-- C10 witnessed on the field name `orderNumber`. -/
theorem c10_header_capitalization_witness :
    jsUpperFirst "orderNumber" ≠ "orderNumber" :=
  (c10_header_capitalization "orderNumber" 'o' "rderNumber".data
    (by decide) (by decide) (by decide)).2.2.2.1

/-- Every row placement of the PDF layout loop stays at or above the
page-break threshold, provided the loop starts there. -/
theorem pdfLoop_top_le (n : Nat) :
    ∀ page top, top ≤ pdfPageHeight - 100 →
      ∀ pt ∈ (pdfLoop n page top).1, pt.2 ≤ pdfPageHeight - 100 := by
  induction n with
  | zero =>
    intro page top _ pt hpt
    simp [pdfLoop] at hpt
  | succ n ih =>
    intro page top h pt hpt
    rw [pdfLoop] at hpt
    by_cases hb : top + 25 > pdfPageHeight - 100
    · rw [if_pos hb] at hpt
      rcases List.mem_cons.mp hpt with h1 | h1
      · rw [h1]; exact h
      · refine ih (page + 1) 50 ?_ pt h1
        have : pdfPageHeight = 792 := rfl
        omega
    · rw [if_neg hb] at hpt
      rcases List.mem_cons.mp hpt with h1 | h1
      · rw [h1]; exact h
      · exact ih page (top + 25) (by omega) pt h1

/-- The first placement the layout loop produces (on a nonempty row set)
is at the starting page and offset. -/
theorem pdfLoop_head (n page top : Nat) :
    ((pdfLoop (n + 1) page top).1).head? = some (page, top) := by
  rw [pdfLoop]
  split <;> rfl

/-- Consecutive row placements of the PDF layout loop follow the source's
break rule exactly: when the next offset passes `pageHeight - 100` the
next row starts a fresh page at offset 50, otherwise it stays on the same
page 25 points lower. -/
theorem pdfLoop_chain (n : Nat) :
    ∀ page top,
      List.Chain' (fun a b : Nat × Nat =>
        (a.2 + 25 > pdfPageHeight - 100 → b.1 = a.1 + 1 ∧ b.2 = 50) ∧
        (a.2 + 25 ≤ pdfPageHeight - 100 → b.1 = a.1 ∧ b.2 = a.2 + 25))
        (pdfLoop n page top).1 := by
  induction n with
  | zero => intro page top; simp [pdfLoop]
  | succ n ih =>
    intro page top
    rw [pdfLoop]
    by_cases hb : top + 25 > pdfPageHeight - 100
    · rw [if_pos hb]
      cases n with
      | zero => simp [pdfLoop]
      | succ m =>
        refine List.chain'_cons'.mpr ⟨?_, ih (page + 1) 50⟩
        intro y hy
        rw [pdfLoop_head] at hy
        simp only [Option.mem_some_iff] at hy
        subst hy
        exact ⟨fun _ => ⟨rfl, rfl⟩, fun hle => absurd hb (by omega)⟩
    · rw [if_neg hb]
      cases n with
      | zero => simp [pdfLoop]
      | succ m =>
        refine List.chain'_cons'.mpr ⟨?_, ih page (top + 25)⟩
        intro y hy
        rw [pdfLoop_head] at hy
        simp only [Option.mem_some_iff] at hy
        subst hy
        exact ⟨fun hgt => absurd hgt (by omega), fun _ => ⟨rfl, rfl⟩⟩

/-- C8: in the paginated-document renderer, whenever the next data row
would extend past the page's bottom margin (rows are 25pt tall, the
margin is 50pt on a 792pt page) that row is placed on a new page at
offset 50 and the table continues without repeating the header band
(the band is drawn only on the first page); no placed row ever crosses
the bottom margin; and a footer with the total row count follows the
last row on the page the loop ends on. -/
theorem c8_pdf_pagination (data : List (List (String × JSVal)))
    (fields : List String) (title : String) :
    List.Chain' (fun a b : Nat × Nat =>
        a.2 + 25 + 25 > pdfPageHeight - 50 → b.1 = a.1 + 1 ∧ b.2 = 50)
      (exportToPdfDoc data fields title).placements ∧
    (∀ pt ∈ (exportToPdfDoc data fields title).placements,
      pt.2 + 25 ≤ pdfPageHeight - 50) ∧
    (exportToPdfDoc data fields title).headerBandPage = 0 ∧
    (exportToPdfDoc data fields title).footerText =
      "Total Records: " ++ toString data.length ∧
    (exportToPdfDoc data fields title).footerPage = (pdfLoop data.length 0 180).2 := by
  have hph : pdfPageHeight = 792 := rfl
  refine ⟨?_, ?_, rfl, rfl, rfl⟩
  · refine (pdfLoop_chain data.length 0 180).imp ?_
    intro a b hab hgt
    exact hab.1 (by omega)
  · intro pt hpt
    have := pdfLoop_top_le data.length 0 180 (by omega) pt hpt
    omega

/-- C8 witnessed on a concrete one-row export. -/
theorem c8_pdf_pagination_witness :
    (180 : Nat) + 25 ≤ pdfPageHeight - 50 :=
  (c8_pdf_pagination [[]] [] "Report").2.1 (0, 180) (by decide)

/-- The shared format switch hits its default branch exactly when the
format string is none of the four supported enum values. -/
theorem dispatchFormat_unsupported (format : String)
    (rows : List (List (String × JSVal))) (fields : List String)
    (dataType : ExportDataType) (title : String)
    (h1 : format ≠ "csv") (h2 : format ≠ "excel") (h3 : format ≠ "pdf")
    (h4 : format ≠ "json") :
    dispatchFormat format rows fields dataType title =
      .error { message := "Unsupported export format: " ++ format, status := 400 } := by
  unfold dispatchFormat
  rw [if_neg h1, if_neg h2, if_neg h3, if_neg h4]

/-- C1 counterexample: exporting orders with the unrecognized format
`xml` does fail with the unsupported-format error, but only after the
data-source call — the call count observed by a stub data source is 1,
not 0. -/
theorem c1_counterexample :
    (exportOrdersRun "xml" {} []).dsCalls = 1 ∧
    (exportOrdersRun "xml" {} []).dsCalls ≠ 0 ∧
    (exportOrdersRun "xml" {} []).result =
      .error { message := "Unsupported export format: xml", status := 400 } :=
  ⟨rfl, by decide, rfl⟩

/-- C1 amended: for every report kind, calling export with a format
outside the supported set fails with the `Unsupported export format`
`ApiError` (status 400), but only after the exporter's single data-source
call: the observed data-source call count is 1, not 0. -/
theorem c1_unsupported_format_after_fetch (format : String)
    (h1 : format ≠ "csv") (h2 : format ≠ "excel") (h3 : format ≠ "pdf")
    (h4 : format ≠ "json") :
    (∀ filters ds, (exportOrdersRun format filters ds).dsCalls = 1 ∧
      (exportOrdersRun format filters ds).result =
        .error { message := "Unsupported export format: " ++ format, status := 400 }) ∧
    (∀ filters ds, (exportProductsRun format filters ds).dsCalls = 1 ∧
      (exportProductsRun format filters ds).result =
        .error { message := "Unsupported export format: " ++ format, status := 400 }) ∧
    (∀ filters ds, (exportCustomersRun format filters ds).dsCalls = 1 ∧
      (exportCustomersRun format filters ds).result =
        .error { message := "Unsupported export format: " ++ format, status := 400 }) ∧
    (∀ filters dsQuery now, (exportSalesRun format filters dsQuery now).dsCalls = 1 ∧
      (exportSalesRun format filters dsQuery now).result =
        .error { message := "Unsupported export format: " ++ format, status := 400 }) ∧
    (∀ filters ds, (exportInventoryRun format filters ds).dsCalls = 1 ∧
      (exportInventoryRun format filters ds).result =
        .error { message := "Unsupported export format: " ++ format, status := 400 }) ∧
    (∀ filters ds, (exportVendorsRun format filters ds).dsCalls = 1 ∧
      (exportVendorsRun format filters ds).result =
        .error { message := "Unsupported export format: " ++ format, status := 400 }) :=
  ⟨fun _ _ => ⟨rfl, dispatchFormat_unsupported format _ _ _ _ h1 h2 h3 h4⟩,
   fun _ _ => ⟨rfl, dispatchFormat_unsupported format _ _ _ _ h1 h2 h3 h4⟩,
   fun _ _ => ⟨rfl, dispatchFormat_unsupported format _ _ _ _ h1 h2 h3 h4⟩,
   fun _ _ _ => ⟨rfl, dispatchFormat_unsupported format _ _ _ _ h1 h2 h3 h4⟩,
   fun _ _ => ⟨rfl, dispatchFormat_unsupported format _ _ _ _ h1 h2 h3 h4⟩,
   fun _ _ => ⟨rfl, dispatchFormat_unsupported format _ _ _ _ h1 h2 h3 h4⟩⟩

/-- C1 amended, witnessed on the vendors exporter with format `xml`. -/
theorem c1_unsupported_format_witness :
    (exportVendorsRun "xml" {} []).dsCalls = 1 ∧
    (exportVendorsRun "xml" {} []).result =
      .error { message := "Unsupported export format: " ++ "xml", status := 400 } :=
  (c1_unsupported_format_after_fetch "xml" (by decide) (by decide) (by decide)
    (by decide)).2.2.2.2.2 {} []

/-- The price bounds of the products query equal the supplied
`minPrice` / `maxPrice` filters, each independently of the other. -/
theorem buildProductsWhere_price (f : ProductFilters) :
    (buildProductsWhere f).priceGte = f.minPrice ∧
    (buildProductsWhere f).priceLte = f.maxPrice := by
  obtain ⟨cat, ven, minP, maxP, inS, feat, act⟩ := f
  cases cat <;> cases ven <;> cases minP <;> cases maxP <;> cases inS <;>
    cases feat <;> cases act <;> simp [buildProductsWhere]

/-- Without an `inStock` filter, the quantity condition of the inventory
query carries exactly the supplied `minQuantity` / `maxQuantity`
bounds. -/
theorem buildInventoryWhere_quantity (f : InventoryFilters) (h : f.inStock = none) :
    (buildInventoryWhere f).quantity =
      { gt := none, gte := f.minQuantity, lte := f.maxQuantity } := by
  obtain ⟨cat, ven, minQ, maxQ, inS⟩ := f
  subst h
  cases cat <;> cases ven <;> cases minQ <;> cases maxQ <;> simp [buildInventoryWhere]

/-- The orders query carries the date bounds exactly when both are
supplied, and carries neither when either is absent. -/
theorem buildOrdersWhere_dates (f : OrderFilters) :
    (∀ sd ed, f.startDate = some sd → f.endDate = some ed →
      (buildOrdersWhere f).createdAtGte = some sd ∧
      (buildOrdersWhere f).createdAtLte = some ed) ∧
    (f.startDate = none ∨ f.endDate = none →
      (buildOrdersWhere f).createdAtGte = none ∧
      (buildOrdersWhere f).createdAtLte = none) := by
  obtain ⟨sd0, ed0, st, ps⟩ := f
  cases sd0 <;> cases ed0 <;> cases st <;> cases ps <;> simp [buildOrdersWhere]

/-- A product matching a query satisfies every price and quantity bound
present in it. -/
theorem productMatchesWhere_bounds {w : ProductWhere} {p : RawProduct}
    (hm : productMatchesWhere w p = true) :
    (∀ lo, w.priceGte = some lo → lo ≤ p.price) ∧
    (∀ hi, w.priceLte = some hi → p.price ≤ hi) ∧
    (∀ lo, w.quantity.gte = some lo → lo ≤ p.quantity) ∧
    (∀ hi, w.quantity.lte = some hi → p.quantity ≤ hi) := by
  refine ⟨?_, ?_, ?_, ?_⟩ <;> intro x hx <;>
    simp [productMatchesWhere, hx, Bool.and_eq_true, decide_eq_true_iff] at hm <;> tauto

/-- An order matching a query satisfies every creation-date bound present
in it. -/
theorem orderMatchesWhere_bounds {w : OrderWhere} {o : RawOrder}
    (hm : orderMatchesWhere w o = true) :
    (∀ sd, w.createdAtGte = some sd → sd ≤ o.createdAt) ∧
    (∀ ed, w.createdAtLte = some ed → o.createdAt ≤ ed) := by
  refine ⟨?_, ?_⟩ <;> intro x hx <;>
    simp [orderMatchesWhere, hx, Bool.and_eq_true, decide_eq_true_iff] at hm <;> tauto

/-- C2 counterexample: a date range with only a lower bound imposes no
constraint — with `startDate = 100` and no `endDate`, the orders query is
empty and an order created at time 0 (before the lower bound) still
matches it. -/
theorem c2_counterexample :
    buildOrdersWhere { startDate := some 100 } = ({} : OrderWhere) ∧
    orderMatchesWhere (buildOrdersWhere { startDate := some 100 })
      { id := "o1", createdAt := 0 } = true := by
  constructor
  · decide
  · decide

/-- C2 amended: price-range and quantity-range filters compose
independently — a single supplied bound still restricts the query — but
the date-range filters apply only when both bounds are present: a
date range with exactly one bound imposes no constraint. -/
theorem c2_range_filter_composition :
    (∀ (f : ProductFilters) (p : RawProduct) (lo : ℚ), f.minPrice = some lo →
      productMatchesWhere (buildProductsWhere f) p = true → lo ≤ p.price) ∧
    (∀ (f : ProductFilters) (p : RawProduct) (hi : ℚ), f.maxPrice = some hi →
      productMatchesWhere (buildProductsWhere f) p = true → p.price ≤ hi) ∧
    (∀ (f : InventoryFilters) (p : RawProduct) (lo : ℚ), f.inStock = none →
      f.minQuantity = some lo →
      productMatchesWhere (buildInventoryWhere f) p = true → lo ≤ p.quantity) ∧
    (∀ (f : InventoryFilters) (p : RawProduct) (hi : ℚ), f.inStock = none →
      f.maxQuantity = some hi →
      productMatchesWhere (buildInventoryWhere f) p = true → p.quantity ≤ hi) ∧
    (∀ (f : OrderFilters) (o : RawOrder) (sd ed : ℤ), f.startDate = some sd →
      f.endDate = some ed →
      orderMatchesWhere (buildOrdersWhere f) o = true →
      sd ≤ o.createdAt ∧ o.createdAt ≤ ed) ∧
    (∀ f : OrderFilters, f.startDate = none ∨ f.endDate = none →
      (buildOrdersWhere f).createdAtGte = none ∧
      (buildOrdersWhere f).createdAtLte = none) := by
  refine ⟨?_, ?_, ?_, ?_, ?_, ?_⟩
  · intro f p lo hmin hm
    have hg := (buildProductsWhere_price f).1
    rw [hmin] at hg
    exact (productMatchesWhere_bounds hm).1 lo hg
  · intro f p hi hmax hm
    have hl := (buildProductsWhere_price f).2
    rw [hmax] at hl
    exact (productMatchesWhere_bounds hm).2.1 hi hl
  · intro f p lo hin hminq hm
    refine (productMatchesWhere_bounds hm).2.2.1 lo ?_
    rw [buildInventoryWhere_quantity f hin]
    simp [hminq]
  · intro f p hi hin hmaxq hm
    refine (productMatchesWhere_bounds hm).2.2.2 hi ?_
    rw [buildInventoryWhere_quantity f hin]
    simp [hmaxq]
  · intro f o sd ed hs he hm
    have hd := (buildOrdersWhere_dates f).1 sd ed hs he
    exact ⟨(orderMatchesWhere_bounds hm).1 sd hd.1,
      (orderMatchesWhere_bounds hm).2 ed hd.2⟩
  · exact fun f => (buildOrdersWhere_dates f).2

/-- C2 amended, witnessed on a both-bounds order date range and a
one-bound order date range. -/
theorem c2_range_filter_witness :
    ((0 : ℤ) ≤ ({ id := "o2", createdAt := 5 } : RawOrder).createdAt ∧
      ({ id := "o2", createdAt := 5 } : RawOrder).createdAt ≤ 10) ∧
    (buildOrdersWhere { endDate := some 10 }).createdAtGte = none ∧
    (buildOrdersWhere { endDate := some 10 }).createdAtLte = none :=
  ⟨c2_range_filter_composition.2.2.2.2.1
      { startDate := some 0, endDate := some 10 } { id := "o2", createdAt := 5 }
      0 10 rfl rfl (by decide),
   c2_range_filter_composition.2.2.2.2.2 { endDate := some 10 } (Or.inl rfl)⟩

/-- C4 counterexample: the DelimitedText renderer is not atomic — its
single write goes straight to the final output path, and a failure after
one character leaves that nonempty partial file (here `"`, a strict
prefix of the full CSV text `"id"`) at the final path. -/
theorem c4_counterexample :
    runOpsFail (exportToCsvOps [] ["id"] .ORDERS "T") 0 1 emptyFS
      "exports/orders-export-T.csv" = some "\"" ∧
    some "\"" ≠ some (csvOfRows ["id"] ([] : List (List (String × JSVal)))) ∧
    "\"" ≠ "" := by
  refine ⟨by decide, by decide, by decide⟩

/-- C4 amended: `exportToCsv` performs exactly one `writeFileSync`
directly to the final output path — no temp file and no rename — so a
render failing after `k` characters leaves the `k`-character prefix of
the CSV text at the final path. -/
theorem c4_csv_write_not_atomic (rows : List (List (String × JSVal)))
    (fields : List String) (dataType : ExportDataType) (nowIso : String) :
    exportToCsvOps rows fields dataType nowIso =
      [.write (exportFilePath dataType .CSV nowIso) (csvOfRows fields rows)] ∧
    (∀ op ∈ exportToCsvOps rows fields dataType nowIso,
      ∀ src dst, op ≠ .rename src dst) ∧
    (∀ k, runOpsFail (exportToCsvOps rows fields dataType nowIso) 0 k emptyFS
        (exportFilePath dataType .CSV nowIso) =
      some (String.mk ((csvOfRows fields rows).data.take k))) := by
  refine ⟨rfl, ?_, ?_⟩
  · intro op hop src dst
    simp only [exportToCsvOps, List.mem_singleton] at hop
    subst hop
    intro h
    cases h
  · intro k
    simp [exportToCsvOps, runOpsFail]

/-- C4 amended, witnessed on a concrete one-column export failing after
one character. -/
theorem c4_csv_write_not_atomic_witness :
    runOpsFail (exportToCsvOps [] ["id"] .ORDERS "T") 0 1 emptyFS
        (exportFilePath .ORDERS .CSV "T") =
      some (String.mk ((csvOfRows ["id"] ([] : List (List (String × JSVal)))).data.take 1)) :=
  (c4_csv_write_not_atomic [] ["id"] .ORDERS "T").2.2 1

/-- C5: the Sales assembler buckets at exactly one of the four
granularities (hourly, daily, weekly, monthly — anything unrecognized
falls back to the daily truncation), defaults to daily when the filters
supply no interval, and the produced row set is the formatted image of a
bucket list ascending by bucket start time (the query's
`ORDER BY date ASC`). -/
theorem c5_sales_granularity_and_order :
    (∀ interval : Option String, salesDateFormat interval ∈ salesDateFormats) ∧
    salesDateFormat none = "DATE(\"createdAt\")" ∧
    (∀ (dsQuery : ℤ → ℤ → String → List RawBucket) (f : SalesFilters) (now : ℤ),
      List.Pairwise (fun a b : RawBucket => a.date ≤ b.date)
        (salesBuckets dsQuery f now)) ∧
    (∀ (dsQuery : ℤ → ℤ → String → List RawBucket) (f : SalesFilters) (now : ℤ),
      exportSalesRows dsQuery f now = (salesBuckets dsQuery f now).map formatSalesBucket) := by
  refine ⟨?_, rfl, ?_, fun _ _ _ => rfl⟩
  · intro i
    unfold salesDateFormat salesDateFormats
    cases i with
    | none => decide
    | some s =>
      simp only [Option.getD_some]
      split_ifs <;> decide
  · intro dsQuery f now
    have hs := @List.sorted_mergeSort RawBucket
      (fun a b : RawBucket => decide (a.date ≤ b.date))
      (fun a b c hab hbc => by
        simp only [decide_eq_true_iff] at *
        omega)
      (fun a b => by
        simp only [Bool.or_eq_true, decide_eq_true_iff]
        exact Int.le_total a.date b.date)
      (dsQuery (resolveSalesRange f now).1 (resolveSalesRange f now).2
        (salesDateFormat f.interval))
    refine List.Pairwise.imp ?_ hs
    intro a b h
    simpa using h

/-- C7 counterexample: against one fixed data-source state, a Sales
export whose FilterSet omits both dates produces different row content at
two different wall-clock instants (no rows at time 0, one row at time
2000), because the missing end date is resolved from the clock. -/
theorem c7_counterexample :
    exportSalesRows
        (fun s e _ => if s ≤ 1500 ∧ (1500 : ℤ) ≤ e then [{ date := 1500 }] else [])
        {} 0 = [] ∧
    (exportSalesRows
        (fun s e _ => if s ≤ 1500 ∧ (1500 : ℤ) ≤ e then [{ date := 1500 }] else [])
        {} 2000).length = 1 ∧
    exportSalesRows
        (fun s e _ => if s ≤ 1500 ∧ (1500 : ℤ) ≤ e then [{ date := 1500 }] else [])
        {} 0 ≠
      exportSalesRows
        (fun s e _ => if s ≤ 1500 ∧ (1500 : ℤ) ≤ e then [{ date := 1500 }] else [])
        {} 2000 := by
  have e1 : exportSalesRows
      (fun s e _ => if s ≤ 1500 ∧ (1500 : ℤ) ≤ e then [{ date := 1500 }] else [])
      {} 0 = [] := by
    norm_num [exportSalesRows, salesBuckets, runSalesQuery, resolveSalesRange]
  have e2 : (exportSalesRows
      (fun s e _ => if s ≤ 1500 ∧ (1500 : ℤ) ≤ e then [{ date := 1500 }] else [])
      {} 2000).length = 1 := by
    norm_num [exportSalesRows, salesBuckets, runSalesQuery, resolveSalesRange]
  refine ⟨e1, e2, ?_⟩
  intro h
  have := congrArg List.length h
  rw [e1, e2] at this
  simp at this

/-- C7 amended: two export calls with identical FilterSet and identical
data-source state produce identical row content whenever the Sales
FilterSet supplies both the start and the end date — the row production
is then independent of the wall clock (and the non-Sales assemblers take
no clock input at all); a Sales FilterSet omitting a date bound resolves
it from the clock and may produce different rows across calls. -/
theorem c7_sales_rows_clock_independent
    (dsQuery : ℤ → ℤ → String → List RawBucket) (f : SalesFilters)
    (now now2 : ℤ) (h1 : f.startDate.isSome = true) (h2 : f.endDate.isSome = true) :
    exportSalesRows dsQuery f now = exportSalesRows dsQuery f now2 := by
  obtain ⟨sd, hs⟩ := Option.isSome_iff_exists.mp h1
  obtain ⟨ed, he⟩ := Option.isSome_iff_exists.mp h2
  unfold exportSalesRows salesBuckets resolveSalesRange
  simp [hs, he]

/-- C7 amended, witnessed with both dates supplied and two distinct
clock instants. -/
theorem c7_sales_rows_clock_independent_witness :
    exportSalesRows (fun _ _ _ => []) { startDate := some 1, endDate := some 2 } 0 =
      exportSalesRows (fun _ _ _ => []) { startDate := some 1, endDate := some 2 } 5 :=
  c7_sales_rows_clock_independent (fun _ _ _ => [])
    { startDate := some 1, endDate := some 2 } 0 5 rfl rfl
